import Mathlib

/-!
Verification development for the BRAIN-IMAGE-AI-ASSISTANT backend.

The repository contains two backend variants:

* the structured application under `src/backend/app/` (routers `cases.py`,
  `auth.py`, service `ai_service.py`), Supabase-backed — embedded below in
  namespace `Routers` (and `AiService` for the analysis pipeline);
* the monolithic `src/backend/main.py` with in-memory dict stores — embedded
  below in namespace `MainApp`.

Rows and records are embedded as structures whose field names follow the
corresponding Python dict keys.  The Supabase tables and the in-memory dicts
are modelled as Lean lists; `get-by-id` is `List.find?` on the id field and
`update-by-id` maps the update over the rows whose id matches (Supabase
`update ... .eq("id", x)` updates every matching row; primary-key ids are
unique, and the in-memory dict has unique keys, so at most one row matches in
practice).  HTTP errors (`HTTPException(status_code=...)`) are embedded as
`Except Nat` carrying the status code.  Each handler returns its response
paired with the post-state of the store; on an error the store is unchanged.
-/

/-- An authenticated caller as produced by the auth dependency: the fields of
the stored profile row that the case handlers read (`id`, `name`, `role`).
Roles are kept as raw strings exactly as the Python code compares them
(`"DOCTOR"`/`"PATIENT"` in the routers variant, `"doctor"`/`"patient"` in
`main.py`). -/
structure AuthUser where
  id : String
  name : String
  role : String
  deriving Repr, DecidableEq

namespace Routers

/-- A row of the `medical_cases` table (see `create_case` in
`app/routers/cases.py` for the full field set).  `created_at` is the
database-assigned creation timestamp, used only for ordering. -/
structure CaseRow where
  id : String
  patient_id : String
  patient_name : String
  image_url : Option String
  description : String
  created_at : Nat
  status : String
  doctor_feedback : Option String
  doctor_name : Option String
  reply_timestamp : Option String
  has_unread_for_doctor : Bool
  has_unread_for_patient : Bool
  modality : Option String
  tags : Option (List String)
  deriving Repr, DecidableEq

/-- A row of the `case_messages` table. -/
structure MsgRow where
  id : String
  case_id : String
  sender_id : String
  sender_name : String
  sender_role : String
  text : String
  timestamp : String
  created_at : Nat
  deriving Repr, DecidableEq

/-- The two tables the cases router touches. -/
structure DB where
  medical_cases : List CaseRow
  case_messages : List MsgRow
  deriving Repr, DecidableEq

/-- `GET /api/cases/{case_id}` (`get_case` in `app/routers/cases.py`):
404 when no row matches; 403 when a PATIENT caller does not own the case;
otherwise returns the case with its messages and, as a side effect, clears
the unread flag of the caller's role when it was set.  The response is built
from the row as fetched (before the flag update), exactly as in the source.
Messages are returned filtered by `case_id`; the stored list is kept in
insertion order and `created_at` is nondecreasing along it, so the query's
`order("created_at", desc=False)` coincides with the filtered order. -/
def get_case (db : DB) (case_id : String) (current_user : AuthUser) :
    Except Nat (CaseRow × List MsgRow) × DB :=
  match db.medical_cases.find? (fun c => c.id == case_id) with
  | none => (.error 404, db)
  | some case =>
    if current_user.role == "PATIENT" && case.patient_id != current_user.id then
      (.error 403, db)
    else
      let msgs := db.case_messages.filter (fun m => m.case_id == case_id)
      let db' :=
        if current_user.role == "DOCTOR" && case.has_unread_for_doctor then
          { db with medical_cases := db.medical_cases.map (fun c =>
              if c.id == case_id then { c with has_unread_for_doctor := false } else c) }
        else if current_user.role == "PATIENT" && case.has_unread_for_patient then
          { db with medical_cases := db.medical_cases.map (fun c =>
              if c.id == case_id then { c with has_unread_for_patient := false } else c) }
        else db
      (.ok (case, msgs), db')

/-- `POST /api/cases` (`create_case`): 403 unless the caller is a PATIENT.
`image` is `none` when no file was sent, `some (.ok url)` when the blob-store
upload and `get_public_url` succeeded, and `some (.error ())` when the upload
raised — in which case the handler prints and continues with `image_url =
None`.  `new_id` is the server-generated `time_ns` id and `now` the database
`created_at`; the Supabase primary-key insert fails on a duplicate id, which
the handler surfaces as a 500 with the store unchanged. -/
def create_case (db : DB) (current_user : AuthUser) (new_id : String) (now : Nat)
    (description : String) (modality : Option String) (tags : Option String)
    (image : Option (Except Unit String)) :
    Except Nat CaseRow × DB :=
  if current_user.role != "PATIENT" then (.error 403, db)
  else
    let image_url : Option String :=
      match image with
      | none => none
      | some (.ok url) => some url
      | some (.error _) => none
    -- `[t.strip() for t in tags.split(",")] if tags else None` (empty string is falsy)
    let tag_list : Option (List String) :=
      match tags with
      | none => none
      | some t => if t == "" then none else some ((t.splitOn ",").map String.trim)
    let case_data : CaseRow :=
      { id := new_id
        patient_id := current_user.id
        patient_name := current_user.name
        image_url := image_url
        description := description
        created_at := now
        status := "pending"
        doctor_feedback := none
        doctor_name := none
        reply_timestamp := none
        has_unread_for_doctor := true
        has_unread_for_patient := false
        -- `modality if modality else None` (empty string is falsy)
        modality := match modality with
          | none => none
          | some m => if m == "" then none else some m
        tags := tag_list }
    if db.medical_cases.any (fun c => c.id == new_id) then (.error 500, db)
    else (.ok case_data, { db with medical_cases := db.medical_cases ++ [case_data] })

/-- `POST /api/cases/{case_id}/messages` (`send_message`): 404 when the case
is absent; otherwise inserts the message row and then sets both unread flags
on the case: `has_unread_for_doctor := is_patient`,
`has_unread_for_patient := not is_patient`.  A failed insert (duplicate
server-generated id) surfaces as 500 with the store unchanged. -/
def send_message (db : DB) (case_id : String) (current_user : AuthUser)
    (msg_id : String) (text : String) (time_str : String) (now : Nat) :
    Except Nat MsgRow × DB :=
  match db.medical_cases.find? (fun c => c.id == case_id) with
  | none => (.error 404, db)
  | some _ =>
    let message_data : MsgRow :=
      { id := msg_id
        case_id := case_id
        sender_id := current_user.id
        sender_name := current_user.name
        sender_role := current_user.role
        text := text
        timestamp := time_str
        created_at := now }
    if db.case_messages.any (fun m => m.id == msg_id) then (.error 500, db)
    else
      let is_patient := current_user.role == "PATIENT"
      let db' : DB :=
        { medical_cases := db.medical_cases.map (fun c =>
            if c.id == case_id then
              { c with has_unread_for_doctor := is_patient,
                       has_unread_for_patient := !is_patient }
            else c)
          case_messages := db.case_messages ++ [message_data] }
      (.ok message_data, db')

/-- The row update applied by `submit_diagnosis` to a matching case. -/
def diagnosisUpdate (current_user : AuthUser) (feedback time_str : String)
    (c : CaseRow) : CaseRow :=
  { c with status := "completed"
           doctor_feedback := some feedback
           doctor_name := some current_user.name
           reply_timestamp := some time_str
           has_unread_for_patient := true }

/-- `POST /api/cases/{case_id}/diagnosis` (`submit_diagnosis`): 403 unless
the caller is a DOCTOR (checked before the case is looked up); the update is
then run against the id, and an empty update result — no matching row — is a
404.  Returns the updated row. -/
def submit_diagnosis (db : DB) (case_id : String) (current_user : AuthUser)
    (feedback : String) (time_str : String) :
    Except Nat CaseRow × DB :=
  if current_user.role != "DOCTOR" then (.error 403, db)
  else
    match db.medical_cases.find? (fun c => c.id == case_id) with
    | none => (.error 404, db)
    | some case =>
      let db' : DB :=
        { db with medical_cases := db.medical_cases.map (fun c =>
            if c.id == case_id then diagnosisUpdate current_user feedback time_str c
            else c) }
      (.ok (diagnosisUpdate current_user feedback time_str case), db')

/-- `PATCH /api/cases/{case_id}/read` (`mark_as_read`): clears the unread
flag of the caller's role; never 404s (an update on an absent id simply
matches no row). -/
def mark_as_read (db : DB) (case_id : String) (current_user : AuthUser) : DB :=
  if current_user.role == "DOCTOR" then
    { db with medical_cases := db.medical_cases.map (fun c =>
        if c.id == case_id then { c with has_unread_for_doctor := false } else c) }
  else
    { db with medical_cases := db.medical_cases.map (fun c =>
        if c.id == case_id then { c with has_unread_for_patient := false } else c) }

/-- Insert a case into a list ordered by `created_at` descending (newest
first), keeping earlier rows first among equal timestamps. -/
def insertDescByCreated (c : CaseRow) : List CaseRow → List CaseRow
  | [] => [c]
  | x :: xs =>
    if x.created_at ≥ c.created_at then x :: insertDescByCreated c xs
    else c :: x :: xs

/-- Sort by `created_at` descending. -/
def sortDescByCreated (l : List CaseRow) : List CaseRow :=
  l.foldr insertDescByCreated []

/-- `GET /api/cases` (`list_cases`): patients see only their own cases,
doctors see all, ordered newest-first by `created_at`, each with its
messages. -/
def list_cases (db : DB) (current_user : AuthUser) :
    List (CaseRow × List MsgRow) :=
  let cases :=
    if current_user.role == "PATIENT" then
      db.medical_cases.filter (fun c => c.patient_id == current_user.id)
    else db.medical_cases
  (sortDescByCreated cases).map (fun c =>
    (c, db.case_messages.filter (fun m => m.case_id == c.id)))

/-- One invocation of a cases endpoint of the routers variant, with all
request data and server-generated values as payload. -/
inductive Op where
  | create (caller : AuthUser) (new_id : String) (now : Nat) (description : String)
      (modality : Option String) (tags : Option String) (image : Option (Except Unit String))
  | sendMessage (caller : AuthUser) (case_id msg_id text time_str : String) (now : Nat)
  | submitDiagnosis (caller : AuthUser) (case_id feedback time_str : String)
  | markRead (caller : AuthUser) (case_id : String)
  | view (caller : AuthUser) (case_id : String)
  | listCases (caller : AuthUser)

/-- The store after one endpoint invocation (responses discarded). -/
def applyOp (db : DB) : Op → DB
  | .create u nid now d m t i => (create_case db u nid now d m t i).2
  | .sendMessage u cid mid text ts now => (send_message db cid u mid text ts now).2
  | .submitDiagnosis u cid fb ts => (submit_diagnosis db cid u fb ts).2
  | .markRead u cid => mark_as_read db cid u
  | .view u cid => (get_case db cid u).2
  | .listCases _ => db

/-- The store after a sequence of invocations. -/
def applyOps (db : DB) (ops : List Op) : DB := ops.foldl applyOp db

/-- The case `id` exists and is COMPLETED: some row carries the id and every
row carrying it has status `"completed"`. -/
abbrev completedFor (db : DB) (id : String) : Prop :=
  (∃ c ∈ db.medical_cases, c.id = id) ∧
    ∀ c ∈ db.medical_cases, c.id = id → c.status = "completed"

/-- A stored profile row, restricted to the fields `login` reads. -/
structure ProfileRow where
  id : String
  role : String
  name : String
  password_hash : String
  deriving Repr, DecidableEq

/-- `POST /api/auth/login` (`login` in `app/routers/auth.py`).  `verify` is
the black-box bcrypt `verify_password` capability.  401 when the id is
unknown or the password does not verify; 403 when the stored role differs
from the requested role; otherwise the token response (embedded as the
profile row it is built from). -/
def login (profiles : List ProfileRow) (verify : String → String → Bool)
    (req_id req_password req_role : String) : Except Nat ProfileRow :=
  match profiles.find? (fun u => u.id == req_id) with
  | none => .error 401
  | some user =>
    if !verify req_password user.password_hash then .error 401
    else if user.role != req_role then .error 403
    else .ok user

end Routers

namespace MainApp

/-- A message inside a case's embedded `messages` list (`main.py`,
`add_case_message`). -/
structure CaseMsg where
  id : String
  senderId : String
  senderName : String
  senderRole : String
  text : String
  timestamp : String
  deriving Repr, DecidableEq

/-- A value of the in-memory `cases_db` dict (`main.py`).  Field names follow
the camelCase dict keys of that variant; messages are embedded in the case. -/
structure Case where
  id : String
  patientId : String
  patientName : String
  imageUrl : Option String
  description : String
  timestamp : String
  status : String
  doctorFeedback : Option String
  doctorName : Option String
  replyTimestamp : Option String
  messages : List CaseMsg
  hasUnreadForDoctor : Bool
  hasUnreadForPatient : Bool
  modality : Option String
  tags : List String
  deriving Repr, DecidableEq

/-- `cases_db`, a dict keyed by case id, embedded as a list with unique ids;
`cases_db.get(case_id)` is `find?` on the id field. -/
abbrev CasesDB := List Case

/-- `cases_db[case_id] = new_case`: replace the entry when the key exists,
append otherwise. -/
def dictSet (db : CasesDB) (c : Case) : CasesDB :=
  if db.any (fun x => x.id == c.id) then
    db.map (fun x => if x.id == c.id then c else x)
  else db ++ [c]

/-- `GET /api/cases/{case_id}` (`main.py` `get_case`): returns the stored
case or 404.  The handler takes no caller and performs no access check and
no mutation. -/
def get_case (db : CasesDB) (case_id : String) : Except Nat Case :=
  match db.find? (fun c => c.id == case_id) with
  | none => .error 404
  | some case => .ok case

/-- `POST /api/cases` (`main.py` `create_case`): 401 when unauthenticated;
no role check — any logged-in user creates a case owned by themselves.
`image_url` is the computed static-file URL, or `none` when no image was
sent.  `new_case` is stored with `cases_db[case_id] = new_case`. -/
def create_case (db : CasesDB) (user : Option AuthUser) (case_id time_str : String)
    (description modality tags : String) (image_url : Option String) :
    Except Nat Case × CasesDB :=
  match user with
  | none => (.error 401, db)
  | some u =>
    let new_case : Case :=
      { id := case_id
        patientId := u.id
        patientName := u.name
        imageUrl := image_url
        description := description
        timestamp := time_str
        status := "pending"
        doctorFeedback := none
        doctorName := none
        replyTimestamp := none
        messages := []
        hasUnreadForDoctor := true
        hasUnreadForPatient := false
        modality := if modality == "" then none else some modality
        tags := if tags == "" then []
                else ((tags.splitOn ",").map String.trim).filter (fun t => t != "") }
    (.ok new_case, dictSet db new_case)

/-- `POST /api/cases/{case_id}/messages` (`main.py` `add_case_message`):
404 when the case is absent, 401 when unauthenticated; appends the message
and sets the unread flag of the role *opposite* to the sender
(`role == "doctor"` → `hasUnreadForPatient := true`, anything else →
`hasUnreadForDoctor := true`); the sender's own flag is not written. -/
def add_case_message (db : CasesDB) (case_id : String) (user : Option AuthUser)
    (msg_id text time_str : String) : Except Nat CaseMsg × CasesDB :=
  match db.find? (fun c => c.id == case_id) with
  | none => (.error 404, db)
  | some _ =>
    match user with
    | none => (.error 401, db)
    | some u =>
      let message : CaseMsg :=
        { id := msg_id
          senderId := u.id
          senderName := u.name
          senderRole := u.role.toUpper
          text := text
          timestamp := time_str }
      let db' := db.map (fun c =>
        if c.id == case_id then
          if u.role == "doctor" then
            { c with messages := c.messages ++ [message], hasUnreadForPatient := true }
          else
            { c with messages := c.messages ++ [message], hasUnreadForDoctor := true }
        else c)
      (.ok message, db')

/-- The mutation `submit_case_diagnosis` applies to the found case. -/
def diagnosisUpdate (u : AuthUser) (feedback time_str : String) (c : Case) : Case :=
  { c with status := "completed"
           doctorFeedback := some feedback
           doctorName := some u.name
           replyTimestamp := some time_str
           hasUnreadForPatient := true }

/-- `POST /api/cases/{case_id}/diagnosis` (`main.py`
`submit_case_diagnosis`): 404 when the case is absent, 401 when
unauthenticated; **no role check** — any authenticated user completes the
case.  Returns the mutated case. -/
def submit_case_diagnosis (db : CasesDB) (case_id : String)
    (user : Option AuthUser) (feedback time_str : String) :
    Except Nat Case × CasesDB :=
  match db.find? (fun c => c.id == case_id) with
  | none => (.error 404, db)
  | some case =>
    match user with
    | none => (.error 401, db)
    | some u =>
      let db' := db.map (fun c =>
        if c.id == case_id then diagnosisUpdate u feedback time_str c else c)
      (.ok (diagnosisUpdate u feedback time_str case), db')

/-- `PATCH /api/cases/{case_id}/read` (`main.py` `mark_case_read`): 404 when
the case is absent; an unauthenticated call is a successful no-op; otherwise
clears the unread flag of the caller's role. -/
def mark_case_read (db : CasesDB) (case_id : String) (user : Option AuthUser) :
    Except Nat Unit × CasesDB :=
  match db.find? (fun c => c.id == case_id) with
  | none => (.error 404, db)
  | some _ =>
    match user with
    | none => (.ok (), db)
    | some u =>
      let db' := db.map (fun c =>
        if c.id == case_id then
          if u.role == "doctor" then { c with hasUnreadForDoctor := false }
          else { c with hasUnreadForPatient := false }
        else c)
      (.ok (), db')

/-- `GET /api/cases` (`main.py` `list_cases`): all cases, filtered to the
caller's own when the caller is a logged-in patient.  (The subsequent
newest-first sort by the `timestamp` string does not change the store and is
not needed by any claim below; the filter is the access-relevant part.) -/
def list_cases (db : CasesDB) (user : Option AuthUser) : List Case :=
  match user with
  | some u =>
    if u.role == "patient" then db.filter (fun c => c.patientId == u.id)
    else db
  | none => db

/-- One invocation of a cases endpoint of the `main.py` variant. -/
inductive MOp where
  | create (user : Option AuthUser) (case_id time_str description modality tags : String)
      (image_url : Option String)
  | addMessage (user : Option AuthUser) (case_id msg_id text time_str : String)
  | submitDiagnosis (user : Option AuthUser) (case_id feedback time_str : String)
  | markRead (user : Option AuthUser) (case_id : String)
  | view (case_id : String)
  | listCases (user : Option AuthUser)

/-- The store after one endpoint invocation (`get_case` and `list_cases`
never write). -/
def applyMOp (db : CasesDB) : MOp → CasesDB
  | .create u cid ts d m t img => (create_case db u cid ts d m t img).2
  | .addMessage u cid mid text ts => (add_case_message db cid u mid text ts).2
  | .submitDiagnosis u cid fb ts => (submit_case_diagnosis db cid u fb ts).2
  | .markRead u cid => (mark_case_read db cid u).2
  | .view _ => db
  | .listCases _ => db

/-- The store after a sequence of invocations. -/
def applyMOps (db : CasesDB) (ops : List MOp) : CasesDB := ops.foldl applyMOp db

/-- Server-generated case ids (`uuid.uuid4()`) are fresh: a create never
reuses an id already present in the store.  (`cases_db[case_id] = new_case`
would otherwise silently replace the stored case.) -/
def freshCreate (db : CasesDB) : MOp → Bool
  | .create _ cid _ _ _ _ _ => !db.any (fun c => c.id == cid)
  | _ => true

/-- Every create in the sequence uses an id fresh at its execution point. -/
def freshCreates : List MOp → CasesDB → Bool
  | [], _ => true
  | op :: ops, db => freshCreate db op && freshCreates ops (applyMOp db op)

/-- The case `id` exists and is COMPLETED in the `main.py` store. -/
abbrev completedFor (db : CasesDB) (id : String) : Prop :=
  (∃ c ∈ db, c.id = id) ∧ ∀ c ∈ db, c.id = id → c.status = "completed"

/-- A value of the in-memory `users_db` dict (`main.py`), restricted to the
fields `login` reads. -/
structure UserRec where
  id : String
  role : String
  name : String
  password_hash : String
  deriving Repr, DecidableEq

/-- `POST /api/auth/login` (`main.py` `login`).  `sha256hex` is the
`hashlib.sha256(...).hexdigest()` capability.  401 when the id is unknown or
the password hash does not match; otherwise the login succeeds — the
requested role is **never compared** against the stored role (the token is
issued with the stored role). -/
def login (users_db : List UserRec) (sha256hex : String → String)
    (req_id req_password req_role : String) : Except Nat UserRec :=
  match users_db.find? (fun u => u.id == req_id) with
  | none => .error 401
  | some user =>
    if user.password_hash != sha256hex req_password then .error 401
    else .ok user

end MainApp

/-!
## Concrete fixtures

Small concrete stores and callers used to instantiate the theorems below on
explicit inputs.
-/

/-- A patient caller of the routers variant. -/
def patientP1 : AuthUser := ⟨"p1", "P One", "PATIENT"⟩

/-- A second patient, not the owner of any fixture case. -/
def patientP2 : AuthUser := ⟨"p2", "P Two", "PATIENT"⟩

/-- A doctor caller of the routers variant. -/
def doctorD1 : AuthUser := ⟨"d1", "Doc One", "DOCTOR"⟩

/-- A patient caller of the `main.py` variant (lowercase role). -/
def mPatientP1 : AuthUser := ⟨"p1", "P One", "patient"⟩

/-- A doctor caller of the `main.py` variant. -/
def mDoctorD1 : AuthUser := ⟨"d1", "Doc One", "doctor"⟩

/-- A completed fixture case owned by `p1` (routers variant). -/
def rcaseCompleted : Routers.CaseRow :=
  { id := "c1", patient_id := "p1", patient_name := "P One", image_url := none
    description := "desc one", created_at := 1, status := "completed"
    doctor_feedback := some "fb", doctor_name := some "Doc One"
    reply_timestamp := some "2025/06/15 10:30"
    has_unread_for_doctor := false, has_unread_for_patient := true
    modality := none, tags := none }

/-- A pending fixture case owned by `p1` with both unread flags set
(routers variant). -/
def rcasePending : Routers.CaseRow :=
  { id := "c2", patient_id := "p1", patient_name := "P One", image_url := none
    description := "desc two", created_at := 2, status := "pending"
    doctor_feedback := none, doctor_name := none, reply_timestamp := none
    has_unread_for_doctor := true, has_unread_for_patient := true
    modality := none, tags := none }

/-- A fixture store of the routers variant. -/
def rdb : Routers.DB := { medical_cases := [rcaseCompleted, rcasePending], case_messages := [] }

/-- A completed fixture case owned by `p1` (`main.py` variant). -/
def mcaseCompleted : MainApp.Case :=
  { id := "c1", patientId := "p1", patientName := "P One", imageUrl := none
    description := "desc one", timestamp := "2025/06/15 10:30", status := "completed"
    doctorFeedback := some "fb", doctorName := some "Doc One"
    replyTimestamp := some "2025/06/15 11:00", messages := []
    hasUnreadForDoctor := false, hasUnreadForPatient := true
    modality := none, tags := [] }

/-- A pending fixture case owned by `p1` with both unread flags set
(`main.py` variant). -/
def mcasePending : MainApp.Case :=
  { id := "c2", patientId := "p1", patientName := "P One", imageUrl := none
    description := "desc two", timestamp := "2025/06/16 09:00", status := "pending"
    doctorFeedback := none, doctorName := none, replyTimestamp := none
    messages := [], hasUnreadForDoctor := true, hasUnreadForPatient := true
    modality := none, tags := [] }

/-- A fixture store of the `main.py` variant. -/
def mdb : MainApp.CasesDB := [mcaseCompleted, mcasePending]

/-- A stored `main.py` patient account (the `sha256hex` capability is
instantiated with a concrete injection in the witnesses). -/
def mUserP1 : MainApp.UserRec := ⟨"p1", "patient", "P One", "hash:pw1"⟩

/-- A stored routers-variant patient profile. -/
def rProfileP1 : Routers.ProfileRow := ⟨"p1", "PATIENT", "P One", "hash:pw1"⟩

/-!
## MD5 (RFC 1321)

Both analysis variants compute `hashlib.md5(image_contents).hexdigest()` and
then `int(file_hash, 16) % len(FEATURE_DATABASE)`.  The digest algorithm is
embedded here over byte lists (`List Nat`, each element `< 256`), with 32-bit
words as `Nat` reduced `% 2 ^ 32`.
-/

namespace MD5

/-- 32-bit left rotation. -/
def rotl32 (x n : Nat) : Nat :=
  ((x * 2 ^ n) + (x / 2 ^ (32 - n))) % 2 ^ 32

/-- Per-round left-rotation amounts. -/
def sTable : List Nat :=
  [7, 12, 17, 22, 7, 12, 17, 22, 7, 12, 17, 22, 7, 12, 17, 22,
   5, 9, 14, 20, 5, 9, 14, 20, 5, 9, 14, 20, 5, 9, 14, 20,
   4, 11, 16, 23, 4, 11, 16, 23, 4, 11, 16, 23, 4, 11, 16, 23,
   6, 10, 15, 21, 6, 10, 15, 21, 6, 10, 15, 21, 6, 10, 15, 21]

/-- Round constants `⌊2³² · |sin (i + 1)|⌋`. -/
def kTable : List Nat :=
  [0xd76aa478, 0xe8c7b756, 0x242070db, 0xc1bdceee,
   0xf57c0faf, 0x4787c62a, 0xa8304613, 0xfd469501,
   0x698098d8, 0x8b44f7af, 0xffff5bb1, 0x895cd7be,
   0x6b901122, 0xfd987193, 0xa679438e, 0x49b40821,
   0xf61e2562, 0xc040b340, 0x265e5a51, 0xe9b6c7aa,
   0xd62f105d, 0x02441453, 0xd8a1e681, 0xe7d3fbc8,
   0x21e1cde6, 0xc33707d6, 0xf4d50d87, 0x455a14ed,
   0xa9e3e905, 0xfcefa3f8, 0x676f02d9, 0x8d2a4c8a,
   0xfffa3942, 0x8771f681, 0x6d9d6122, 0xfde5380c,
   0xa4beea44, 0x4bdecfa9, 0xf6bb4b60, 0xbebfbc70,
   0x289b7ec6, 0xeaa127fa, 0xd4ef3085, 0x04881d05,
   0xd9d4d039, 0xe6db99e5, 0x1fa27cf8, 0xc4ac5665,
   0xf4292244, 0x432aff97, 0xab9423a7, 0xfc93a039,
   0x655b59c3, 0x8f0ccc92, 0xffeff47d, 0x85845dd1,
   0x6fa87e4f, 0xfe2ce6e0, 0xa3014314, 0x4e0811a1,
   0xf7537e82, 0xbd3af235, 0x2ad7d2bb, 0xeb86d391]

/-- `n` bytes of `v`, little-endian. -/
def leBytes : Nat → Nat → List Nat
  | 0, _ => []
  | n + 1, v => v % 256 :: leBytes n (v / 256)

/-- Little-endian 32-bit word from up to four bytes. -/
def leWord (bs : List Nat) : Nat :=
  bs.foldr (fun b acc => b + 256 * acc) 0

/-- Pad the message: a `0x80` byte, zeros to 56 mod 64, then the bit length
as eight little-endian bytes. -/
def pad (msg : List Nat) : List Nat :=
  let zeros := (64 + 56 - (msg.length + 1) % 64) % 64
  msg ++ [0x80] ++ List.replicate zeros 0 ++ leBytes 8 (msg.length * 8 % 2 ^ 64)

/-- Split into 64-byte chunks (the input length is a multiple of 64). -/
def chunks (l : List Nat) : List (List Nat) :=
  if h : l.length = 0 then []
  else
    have : l.length - 64 < l.length := by
      have := Nat.pos_of_ne_zero h
      omega
    l.take 64 :: chunks (l.drop 64)
termination_by l.length
decreasing_by simpa [List.length_drop]

/-- One of the 64 rounds: `st = (A, B, C, D)` and `M i` is the `i`-th
little-endian message word of the current chunk. -/
def step (M : Nat → Nat) (st : Nat × Nat × Nat × Nat) (i : Nat) :
    Nat × Nat × Nat × Nat :=
  let (a, b, c, d) := st
  let fg : Nat × Nat :=
    if i < 16 then ((b &&& c) ||| ((b ^^^ 0xffffffff) &&& d), i)
    else if i < 32 then ((d &&& b) ||| ((d ^^^ 0xffffffff) &&& c), (5 * i + 1) % 16)
    else if i < 48 then (b ^^^ c ^^^ d, (3 * i + 5) % 16)
    else (c ^^^ (b ||| (d ^^^ 0xffffffff)), 7 * i % 16)
  let f := (fg.1 + a + kTable.getD i 0 + M fg.2) % 2 ^ 32
  (d, (b + rotl32 f (sTable.getD i 0)) % 2 ^ 32, b, c)

/-- Process one 64-byte chunk into the running state. -/
def processChunk (st : Nat × Nat × Nat × Nat) (chunk : List Nat) :
    Nat × Nat × Nat × Nat :=
  let M : Nat → Nat := fun j => leWord ((chunk.drop (4 * j)).take 4)
  let (a, b, c, d) := (List.range 64).foldl (step M) st
  ((st.1 + a) % 2 ^ 32, (st.2.1 + b) % 2 ^ 32,
   (st.2.2.1 + c) % 2 ^ 32, (st.2.2.2 + d) % 2 ^ 32)

/-- The 16 digest bytes of a byte message. -/
def digest (msg : List Nat) : List Nat :=
  let st := (chunks (pad msg)).foldl processChunk
    (0x67452301, 0xefcdab89, 0x98badcfe, 0x10325476)
  leBytes 4 st.1 ++ leBytes 4 st.2.1 ++ leBytes 4 st.2.2.1 ++ leBytes 4 st.2.2.2

/-- `int(hashlib.md5(msg).hexdigest(), 16)`: the hex digest read as a base-16
number is the digest bytes read big-endian. -/
def digestNat (msg : List Nat) : Nat :=
  (digest msg).foldl (fun acc b => acc * 256 + b) 0

end MD5

/-!
## Report synthesis pipeline

The external model call is the one non-deterministic step; it is abstracted
as the `model_output : String` parameter.  JSON parsing (`json.loads`) is an
external capability abstracted as `parse : String → Option AnalysisReport`,
returning `none` exactly when parsing raises `JSONDecodeError`.
-/

/-- An entry of the fixed visual-feature catalog `FEATURE_DATABASE`. -/
structure Feature where
  description : String
  regions : List String
  severity : String
  suspected : String
  deriving Repr, DecidableEq

/-- `FEATURE_DATABASE` — identical in `app/services/ai_service.py` and
`main.py` (7 entries). -/
def FEATURE_DATABASE : List Feature :=
  [⟨"MRI T1加权像显示右侧海马体头部（Hippocampal Head）体积较常模缩小约 12%，灰白质对比度在颞叶内侧降低。内嗅皮层可见轻度萎缩。",
    ["海马体 CA1", "内嗅皮层", "颞叶"], "中度风险", "阿尔茨海默病 (AD) 早期"⟩,
   ⟨"fMRI 静息态数据显示杏仁核（Amygdala）与前额叶皮层（PFC）之间的功能连接（Functional Connectivity）显著减弱。情感调节回路异常。",
    ["杏仁核", "前额叶皮层"], "高风险", "双相情感障碍 (BIP) / 精神分裂症 (SCZ)"⟩,
   ⟨"SWI 序列显示基底节区及半卵圆中心可见多发微出血灶（Microbleeds）。T2-FLAIR 显示脑室旁白质高信号（WMH），Fazekas 2级。",
    ["基底节", "半卵圆中心", "白质"], "中度风险", "脑小血管病 (CSVD) / 血管性认知障碍"⟩,
   ⟨"黑质致密带（SNpc）在 NM-MRI（神经黑色素成像）上显示信号减低，燕尾征（Swallow Tail Sign）模糊或消失。纹状体多巴胺转运体摄取率降低。",
    ["黑质", "纹状体"], "高风险", "帕金森病 (PD)"⟩,
   ⟨"左侧额叶可见一类圆形占位性病变，边界清晰，T1低信号，T2高信号，增强扫描可见明显强化，伴周围轻度水肿。",
    ["左侧额叶"], "高风险", "脑膜瘤 (Meningioma) 或 胶质瘤 (Glioma)"⟩,
   ⟨"胼胝体及脑室旁可见多发垂直于侧脑室的卵圆形高信号灶（Dawson's Fingers），提示脱髓鞘改变。",
    ["胼胝体", "脑室旁白质"], "中度风险", "多发性硬化 (MS)"⟩,
   ⟨"全脑结构扫描未见明显异常，皮层厚度在正常范围内，基底节区无异常信号，脑室系统形态正常。",
    ["全脑"], "健康", "健康对照 (CN)"⟩]

/-- An entry of the fixed genomic catalog `GENE_DATABASE`. -/
structure GeneEntry where
  gene_summary : String
  risk_genes : List String
  cell_type : String
  deriving Repr, DecidableEq

/-- `GENE_DATABASE` of `app/services/ai_service.py` (4 entries). -/
def GENE_DATABASE : List GeneEntry :=
  [⟨"scRNA-seq 显示 Microglia 中 TREM2, CD33 表达显著上调，提示神经炎症活跃。Astrocyte 呈反应性状态 (GFAP high)。",
    ["APOE-e4", "TREM2", "CD33"], "Microglia & Astrocytes"⟩,
   ⟨"Excitatory Neurons (Layer 5/6) 突触相关基因 (SYT1, SNAP25) 表达下调。",
    ["SYT1", "NRXN1", "GRIN2A"], "Glutamatergic Neurons"⟩,
   ⟨"Dopaminergic neuron 标记物 (TH, DAT) 表达水平降低，线粒体功能障碍相关基因 (PINK1) 异常。",
    ["SNCA", "PINK1", "LRRK2"], "Dopaminergic Neurons"⟩,
   ⟨"基因表达谱正常，未检测到显著的疾病相关变异富集。", [], "Normal"⟩]

/-- `GENE_DATABASE` of `main.py` (4 entries, slightly shorter texts). -/
def GENE_DATABASE_MAIN : List GeneEntry :=
  [⟨"scRNA-seq 显示 Microglia 中 TREM2, CD33 表达显著上调，提示神经炎症活跃。",
    ["APOE-e4", "TREM2", "CD33"], "Microglia & Astrocytes"⟩,
   ⟨"Excitatory Neurons (Layer 5/6) 突触相关基因 (SYT1, SNAP25) 表达下调。",
    ["SYT1", "NRXN1", "GRIN2A"], "Glutamatergic Neurons"⟩,
   ⟨"Dopaminergic neuron 标记物 (TH, DAT) 表达水平降低。",
    ["SNCA", "PINK1", "LRRK2"], "Dopaminergic Neurons"⟩,
   ⟨"基因表达谱正常。", [], "Normal"⟩]

/-- A `regions[]` entry of the report contract.  The score is a number in
`[0, 1]`; the fallback always writes the literal `0.8`, embedded as the
rational `4/5`. -/
structure RegionRisk where
  name : String
  description : String
  score : ℚ
  level : String
  deriving Repr, DecidableEq

/-- The report shape demanded from the model (the eight fields of the JSON
contract).  On a successful parse the model's structure is returned verbatim;
the three `diseaseRisks`/`gwasAnalysis`/`modelConfidence` lists and
`lifecycleProjection` are free-form scored entries, embedded as name/score
pairs resp. year/risk pairs. -/
structure AnalysisReport where
  summary : String
  detailedFindings : String
  regions : List RegionRisk
  recommendation : String
  diseaseRisks : List (String × ℚ)
  gwasAnalysis : List (String × ℚ)
  modelConfidence : List (String × ℚ)
  lifecycleProjection : List (Nat × ℚ)
  deriving Repr, DecidableEq

/-- `seed_idx = int(file_hash, 16) % len(FEATURE_DATABASE)` — shared by both
variants. -/
def seed_idx (image_contents : List Nat) : Nat :=
  MD5.digestNat image_contents % FEATURE_DATABASE.length

/-- `visual_feature = FEATURE_DATABASE[seed_idx]`. -/
def visual_feature (image_contents : List Nat) : Feature :=
  FEATURE_DATABASE.get ⟨seed_idx image_contents, Nat.mod_lt _ (by decide)⟩

namespace AiService

/-- The genomic stage of `analyze_multimodal` in `ai_service.py`: the
placeholder when no gene file is supplied (or either part is empty, both
being falsy in `if gene_contents and gene_filename:`), otherwise the text
built from `GENE_DATABASE[len(gene_filename) % 4]`. -/
def gene_feature_text (gene : Option (List Nat × String)) : String :=
  match gene with
  | some (gene_contents, gene_filename) =>
    if gene_contents.isEmpty || gene_filename.isEmpty then "未提供单细胞/基因数据。"
    else
      let gene_data := GENE_DATABASE.get
        ⟨gene_filename.length % GENE_DATABASE.length, Nat.mod_lt _ (by decide)⟩
      "\n        【单细胞测序分析结果】:\n        - 关键发现: " ++
        gene_data.gene_summary ++ "\n        - 风险基因检出: " ++
        String.intercalate ", " gene_data.risk_genes ++
        "\n        - 主要受累细胞: " ++ gene_data.cell_type ++ "\n        "
  | none => "未提供单细胞/基因数据。"

/-- The fallback report of `ai_service.py`, synthesized from the selected
visual feature and the gene text when the model output fails to parse.
(`visual_feature['regions'][0]` is total because every catalog entry has a
non-empty region list; `headD` with default `""` is exact on this catalog.) -/
def fallback_report (vf : Feature) (gene_text : String) : AnalysisReport :=
  { summary := "AI 融合分析：影像显示" ++ vf.regions.headD "" ++ "异常。"
    detailedFindings := "影像：" ++ vf.description ++ "\n基因：" ++ gene_text
    regions := vf.regions.map (fun r =>
      { name := r, description := "检测到异常信号", score := 0.8, level := "High Risk" })
    recommendation := "建议进一步检查。"
    diseaseRisks := []
    gwasAnalysis := []
    modelConfidence := []
    lifecycleProjection := [] }

/-- `ai_content.replace("```json", "").replace("```", "").strip()`. -/
def cleaned (ai_content : String) : String :=
  ((ai_content.replace "```json" "").replace "```" "").trim

/-- `analyze_multimodal` of `app/services/ai_service.py` from the point of
view of its result: deterministic feature selection from the image bytes and
the gene filename, then the model text (`model_output`, the non-deterministic
external step) is cleaned and parsed; on success the parsed report is
returned verbatim, on failure the deterministic fallback. -/
def analyze_multimodal (parse : String → Option AnalysisReport)
    (image_contents : List Nat) (gene : Option (List Nat × String))
    (model_output : String) : AnalysisReport :=
  let vf := visual_feature image_contents
  let gt := gene_feature_text gene
  match parse (cleaned model_output) with
  | some report => report
  | none => fallback_report vf gt

end AiService

namespace MainApp

/-- The genomic stage of `analyze_multimodal` in `main.py`: placeholder when
no gene file was uploaded, otherwise the text built from
`GENE_DATABASE[len(gene_file.filename) % 4]`. -/
def gene_feature_text (gene_filename : Option String) : String :=
  match gene_filename with
  | some fname =>
    let gene_data := GENE_DATABASE_MAIN.get
      ⟨fname.length % GENE_DATABASE_MAIN.length, Nat.mod_lt _ (by decide)⟩
    "单细胞测序: " ++ gene_data.gene_summary ++ " 风险基因: " ++
      String.intercalate ", " gene_data.risk_genes
  | none => "未提供单细胞/基因数据。"

/-- The fallback report of `main.py`'s `analyze_multimodal`. -/
def fallback_report (vf : Feature) : AnalysisReport :=
  { summary := "AI分析：" ++ vf.regions.headD "" ++ "异常。"
    detailedFindings := vf.description
    regions := vf.regions.map (fun r =>
      { name := r, description := "异常", score := 0.8, level := "High Risk" })
    recommendation := "建议进一步检查。"
    diseaseRisks := []
    gwasAnalysis := []
    modelConfidence := []
    lifecycleProjection := [] }

/-- `analyze_multimodal` of `main.py`: same feature selection; the model text
is parsed directly (`json.loads(ai_text)`, no cleaning), with the fallback on
`JSONDecodeError`. -/
def analyze_multimodal (parse : String → Option AnalysisReport)
    (image_contents : List Nat) (gene_filename : Option String)
    (model_output : String) : AnalysisReport :=
  let vf := visual_feature image_contents
  let _gt := gene_feature_text gene_filename
  match parse model_output with
  | some report => report
  | none => fallback_report vf

end MainApp

/-!
## Helper lemmas
-/

/-- Mapping a row transformation that never changes ids and never downgrades
a COMPLETED status preserves "the case `id` exists and is COMPLETED". -/
theorem completed_map {α : Type} (idOf stOf : α → String) (g : α → α)
    (l : List α) (id : String)
    (hid : ∀ c, idOf (g c) = idOf c)
    (hst : ∀ c, stOf c = "completed" → stOf (g c) = "completed")
    (hex : ∃ c ∈ l, idOf c = id)
    (hall : ∀ c ∈ l, idOf c = id → stOf c = "completed") :
    (∃ c ∈ l.map g, idOf c = id) ∧
      ∀ c ∈ l.map g, idOf c = id → stOf c = "completed" := by
  constructor
  · obtain ⟨c, hc, hcid⟩ := hex
    exact ⟨g c, List.mem_map_of_mem _ hc, by rw [hid, hcid]⟩
  · intro c' hc' hcid'
    rw [List.mem_map] at hc'
    obtain ⟨c, hc, rfl⟩ := hc'
    rw [hid] at hcid'
    exact hst c (hall c hc hcid')

/-- Appending a row with a different id preserves "the case `id` exists and
is COMPLETED". -/
theorem completed_append {α : Type} (idOf stOf : α → String)
    (l : List α) (x : α) (id : String)
    (hx : idOf x ≠ id)
    (hex : ∃ c ∈ l, idOf c = id)
    (hall : ∀ c ∈ l, idOf c = id → stOf c = "completed") :
    (∃ c ∈ l ++ [x], idOf c = id) ∧
      ∀ c ∈ l ++ [x], idOf c = id → stOf c = "completed" := by
  constructor
  · obtain ⟨c, hc, hcid⟩ := hex
    exact ⟨c, List.mem_append_left _ hc, hcid⟩
  · intro c hc hcid
    rcases List.mem_append.mp hc with h | h
    · exact hall c h hcid
    · rcases List.mem_singleton.mp h with rfl
      exact absurd hcid hx

/-- `completedFor` is preserved by an `update ... .eq("id", cid)` that keeps
ids and never downgrades a COMPLETED status. -/
theorem Routers.completedFor_update_row (db : Routers.DB) (cid id : String)
    (f : Routers.CaseRow → Routers.CaseRow)
    (hid : ∀ c, (f c).id = c.id)
    (hst : ∀ c, c.status = "completed" → (f c).status = "completed")
    (h : Routers.completedFor db id) :
    Routers.completedFor
      { db with medical_cases := db.medical_cases.map (fun c => if c.id == cid then f c else c) }
      id := by
  obtain ⟨hex, hall⟩ := h
  have := completed_map (fun c => c.id) (fun c => c.status)
    (fun c => if c.id == cid then f c else c) db.medical_cases id
    (fun c => by dsimp only; split; exacts [hid c, rfl])
    (fun c hc => by dsimp only at hc ⊢; split; exacts [hst c hc, hc]) hex hall
  exact this

/-- No endpoint of the routers variant ever moves a case out of COMPLETED:
every single invocation preserves `completedFor`. -/
theorem Routers.applyOp_preserves_completed (db : Routers.DB) (op : Routers.Op)
    (id : String) (h : Routers.completedFor db id) :
    Routers.completedFor (Routers.applyOp db op) id := by
  cases op with
  | create u nid now d m t i =>
    simp only [Routers.applyOp, Routers.create_case]
    split
    · exact h
    · split
      · exact h
      · rename_i hrole hfresh
        obtain ⟨hex, hall⟩ := h
        refine completed_append (fun c => c.id) (fun c => c.status) _ _ _ ?_ hex hall
        intro hxid
        have hfresh' : ∀ c ∈ db.medical_cases, ¬c.id = nid := by
          simpa [List.any_eq_false] using hfresh
        obtain ⟨c, hc, hcid⟩ := hex
        exact hfresh' c hc (hcid.trans (show nid = id from hxid).symm)
  | sendMessage u cid mid text ts now =>
    simp only [Routers.applyOp, Routers.send_message]
    split
    · exact h
    · split
      · exact h
      · exact Routers.completedFor_update_row db cid id _ (fun c => rfl) (fun c hc => hc) h
  | submitDiagnosis u cid fb ts =>
    simp only [Routers.applyOp, Routers.submit_diagnosis]
    split
    · exact h
    · split
      · exact h
      · exact Routers.completedFor_update_row db cid id _ (fun c => rfl) (fun c _ => rfl) h
  | markRead u cid =>
    simp only [Routers.applyOp, Routers.mark_as_read]
    split <;> exact Routers.completedFor_update_row db cid id _ (fun c => rfl) (fun c hc => hc) h
  | view u cid =>
    simp only [Routers.applyOp, Routers.get_case]
    split
    · exact h
    · split
      · exact h
      · split
        · exact Routers.completedFor_update_row db cid id _ (fun c => rfl) (fun c hc => hc) h
        · split
          · exact Routers.completedFor_update_row db cid id _ (fun c => rfl) (fun c hc => hc) h
          · exact h
  | listCases u => exact h

/-- `completedFor` is preserved by a `main.py`-style in-place update of the
case `cid` that keeps the id and never downgrades a COMPLETED status. -/
theorem MainApp.completedFor_update_case (db : MainApp.CasesDB) (cid id : String)
    (f : MainApp.Case → MainApp.Case)
    (hid : ∀ c, (f c).id = c.id)
    (hst : ∀ c, c.status = "completed" → (f c).status = "completed")
    (h : MainApp.completedFor db id) :
    MainApp.completedFor (db.map (fun c => if c.id == cid then f c else c)) id := by
  obtain ⟨hex, hall⟩ := h
  have := completed_map (fun c => c.id) (fun c => c.status)
    (fun c => if c.id == cid then f c else c) db id
    (fun c => by dsimp only; split; exacts [hid c, rfl])
    (fun c hc => by dsimp only at hc ⊢; split; exacts [hst c hc, hc]) hex hall
  exact this

/-- No endpoint of the `main.py` variant moves a case out of COMPLETED, as
long as a create does not reuse an existing id (`cases_db[case_id] =
new_case` would replace the stored case; `freshCreate` rules that out). -/
theorem MainApp.applyMOp_preserves_completed (db : MainApp.CasesDB) (op : MainApp.MOp)
    (id : String) (hfresh : MainApp.freshCreate db op = true)
    (h : MainApp.completedFor db id) :
    MainApp.completedFor (MainApp.applyMOp db op) id := by
  cases op with
  | create u cid ts d m t img =>
    simp only [MainApp.applyMOp, MainApp.create_case]
    cases u with
    | none => exact h
    | some u =>
      simp only [MainApp.dictSet]
      have hfresh' : ∀ c ∈ db, ¬c.id = cid := by
        simpa [MainApp.freshCreate, List.any_eq_false] using hfresh
      split
      · rename_i hany
        rw [List.any_eq_true] at hany
        obtain ⟨c, hc, hcid⟩ := hany
        exact absurd (by simpa using hcid) (hfresh' c hc)
      · obtain ⟨hex, hall⟩ := h
        refine completed_append (fun c => c.id) (fun c => c.status) _ _ _ ?_ hex hall
        intro hxid
        obtain ⟨c, hc, hcid⟩ := hex
        exact hfresh' c hc (hcid.trans (show cid = id from hxid).symm)
  | addMessage u cid mid text ts =>
    simp only [MainApp.applyMOp, MainApp.add_case_message]
    split
    · exact h
    · cases u with
      | none => exact h
      | some u =>
        exact MainApp.completedFor_update_case db cid id
          (fun c => if u.role == "doctor"
            then { c with messages := c.messages ++ [⟨mid, u.id, u.name, u.role.toUpper, text, ts⟩],
                          hasUnreadForPatient := true }
            else { c with messages := c.messages ++ [⟨mid, u.id, u.name, u.role.toUpper, text, ts⟩],
                          hasUnreadForDoctor := true })
          (fun c => by dsimp only; split <;> rfl)
          (fun c hc => by dsimp only; split <;> exact hc) h
  | submitDiagnosis u cid fb ts =>
    simp only [MainApp.applyMOp, MainApp.submit_case_diagnosis]
    split
    · exact h
    · cases u with
      | none => exact h
      | some u =>
        exact MainApp.completedFor_update_case db cid id _ (fun c => rfl) (fun c _ => rfl) h
  | markRead u cid =>
    simp only [MainApp.applyMOp, MainApp.mark_case_read]
    split
    · exact h
    · cases u with
      | none => exact h
      | some u =>
        exact MainApp.completedFor_update_case db cid id
          (fun c => if u.role == "doctor"
            then { c with hasUnreadForDoctor := false }
            else { c with hasUnreadForPatient := false })
          (fun c => by dsimp only; split <;> rfl)
          (fun c hc => by dsimp only; split <;> exact hc) h
  | view cid => exact h
  | listCases u => exact h

/-- Sequence version for the routers variant. -/
theorem Routers.applyOps_preserves_completed (ops : List Routers.Op)
    (db : Routers.DB) (id : String) (h : Routers.completedFor db id) :
    Routers.completedFor (Routers.applyOps db ops) id := by
  induction ops generalizing db with
  | nil => exact h
  | cons op ops ih =>
    exact ih _ (Routers.applyOp_preserves_completed db op id h)

/-- Sequence version for the `main.py` variant, under id-freshness of the
creates in the sequence. -/
theorem MainApp.applyMOps_preserves_completed (ops : List MainApp.MOp)
    (db : MainApp.CasesDB) (id : String)
    (hfresh : MainApp.freshCreates ops db = true)
    (h : MainApp.completedFor db id) :
    MainApp.completedFor (MainApp.applyMOps db ops) id := by
  induction ops generalizing db with
  | nil => exact h
  | cons op ops ih =>
    rw [MainApp.freshCreates, Bool.and_eq_true] at hfresh
    exact ih _ hfresh.2 (MainApp.applyMOp_preserves_completed db op id hfresh.1 h)

/-!
## The claims
-/

/-- **C5.** For every case and every sequence of engine operations (create,
appendMessage, submitDiagnosis, markRead, view, list), the case's status only
ever moves from PENDING to COMPLETED and never from COMPLETED back to
PENDING: in both variants, once a case id exists with status `"completed"`,
it still exists and every row carrying it is `"completed"` after any further
sequence of operations (in the `main.py` variant under the server-side
guarantee that created uuid ids are fresh, since `cases_db[case_id] =
new_case` would replace an existing entry). -/
theorem C5_status_only_moves_forward :
    (∀ (ops : List Routers.Op) (db : Routers.DB) (id : String),
        Routers.completedFor db id →
          Routers.completedFor (Routers.applyOps db ops) id) ∧
    (∀ (ops : List MainApp.MOp) (db : MainApp.CasesDB) (id : String),
        MainApp.freshCreates ops db = true →
          MainApp.completedFor db id →
            MainApp.completedFor (MainApp.applyMOps db ops) id) :=
  ⟨Routers.applyOps_preserves_completed, MainApp.applyMOps_preserves_completed⟩

/-- Concrete instantiation of `C5_status_only_moves_forward`: a store holding
the completed case `"c1"`, run through a view, a message, a fresh create, a
markRead and a second diagnosis in each variant. -/
theorem C5_status_only_moves_forward_witness :
    Routers.completedFor
      (Routers.applyOps rdb
        [Routers.Op.view doctorD1 "c1",
         Routers.Op.sendMessage patientP1 "c1" "m1" "hello" "10:00" 3,
         Routers.Op.create patientP1 "c3" 4 "new case" none none none,
         Routers.Op.markRead patientP1 "c1",
         Routers.Op.submitDiagnosis doctorD1 "c1" "again" "11:00"]) "c1" ∧
    MainApp.completedFor
      (MainApp.applyMOps mdb
        [MainApp.MOp.view "c1",
         MainApp.MOp.addMessage (some mPatientP1) "c1" "m1" "hello" "10:00",
         MainApp.MOp.create (some mPatientP1) "c3" "10:05" "new case" "" "" none,
         MainApp.MOp.markRead (some mDoctorD1) "c1",
         MainApp.MOp.submitDiagnosis (some mDoctorD1) "c1" "again" "11:00"]) "c1" :=
  ⟨C5_status_only_moves_forward.1 _ rdb "c1" (by decide),
   C5_status_only_moves_forward.2 _ mdb "c1" (by decide) (by decide)⟩

/-- `find?` by id after an `update ... .eq("id", cid)` that keeps ids: the
found row is the updated found row. -/
theorem find?_update {α : Type} (idOf : α → String) (l : List α) (cid : String)
    (f : α → α) (hid : ∀ c, idOf (f c) = idOf c) :
    (l.map (fun c => if idOf c == cid then f c else c)).find? (fun c => idOf c == cid)
      = (l.find? (fun c => idOf c == cid)).map f := by
  induction l with
  | nil => rfl
  | cons x xs ih =>
    by_cases h : (idOf x == cid) = true
    · have hhead : (if (idOf x == cid) = true then f x else x) = f x := if_pos h
      rw [List.map_cons, hhead,
          List.find?_cons_of_pos (List.map (fun c => if (idOf c == cid) = true then f c else c) xs)
            (show (idOf (f x) == cid) = true by rw [hid x]; exact h),
          List.find?_cons_of_pos xs h, Option.map_some']
    · have hhead : (if (idOf x == cid) = true then f x else x) = x := if_neg h
      rw [List.map_cons, hhead,
          List.find?_cons_of_neg (List.map (fun c => if (idOf c == cid) = true then f c else c) xs) h,
          List.find?_cons_of_neg xs h, ih]

/-- **C1, counterexample.**  The claim demands that the view of `main.py`
(`get_case`, cited at `main.py:490-496`) fail with Forbidden for a PATIENT
caller whose id differs from the case's `patientId`.  That handler reads no
caller at all: on the fixture store the view of case `"c1"` (owned by
`"p1"`) simply succeeds — for every caller, in particular the patient
`patientP2` with id `"p2"` ≠ `"p1"` — instead of returning error 403. -/
theorem C1_view_access_control_cex :
    MainApp.get_case mdb "c1" = .ok mcaseCompleted ∧
      mcaseCompleted.patientId ≠ patientP2.id ∧
      MainApp.get_case mdb "c1" ≠ .error 403 :=
  ⟨rfl, by decide, fun h => Except.noConfusion h⟩

/-- **C1, amended.**  In the routers variant (`app/routers/cases.py`) the
access rules hold exactly as claimed: view fails 404 when the case is
absent, fails 403 for a PATIENT caller who does not own the case (store
unchanged in both error cases), and succeeds for the owning patient and for
any DOCTOR.  In the `main.py` variant the view performs no access control:
it returns any stored case to any caller and fails only with 404 when the
case is absent. -/
theorem C1_view_access_control :
    (∀ (db : Routers.DB) (cid : String) (u : AuthUser),
        db.medical_cases.find? (fun c => c.id == cid) = none →
          Routers.get_case db cid u = (.error 404, db)) ∧
    (∀ (db : Routers.DB) (cid : String) (u : AuthUser) (c : Routers.CaseRow),
        db.medical_cases.find? (fun c => c.id == cid) = some c →
          u.role = "PATIENT" → c.patient_id ≠ u.id →
            Routers.get_case db cid u = (.error 403, db)) ∧
    (∀ (db : Routers.DB) (cid : String) (u : AuthUser) (c : Routers.CaseRow),
        db.medical_cases.find? (fun c => c.id == cid) = some c →
          u.role = "PATIENT" → c.patient_id = u.id →
            (Routers.get_case db cid u).1
              = .ok (c, db.case_messages.filter (fun m => m.case_id == cid))) ∧
    (∀ (db : Routers.DB) (cid : String) (u : AuthUser) (c : Routers.CaseRow),
        db.medical_cases.find? (fun c => c.id == cid) = some c →
          u.role = "DOCTOR" →
            (Routers.get_case db cid u).1
              = .ok (c, db.case_messages.filter (fun m => m.case_id == cid))) ∧
    (∀ (db : MainApp.CasesDB) (cid : String) (c : MainApp.Case),
        db.find? (fun c => c.id == cid) = some c →
          MainApp.get_case db cid = .ok c) ∧
    (∀ (db : MainApp.CasesDB) (cid : String),
        db.find? (fun c => c.id == cid) = none →
          MainApp.get_case db cid = .error 404) := by
  refine ⟨?_, ?_, ?_, ?_, ?_, ?_⟩
  · intro db cid u hfind
    simp [Routers.get_case, hfind]
  · intro db cid u c hfind hrole hne
    simp [Routers.get_case, hfind, hrole, hne]
  · intro db cid u c hfind hrole hown
    simp [Routers.get_case, hfind, hrole, hown]
  · intro db cid u c hfind hrole
    simp [Routers.get_case, hfind, hrole]
  · intro db cid c hfind
    simp [MainApp.get_case, hfind]
  · intro db cid hfind
    simp [MainApp.get_case, hfind]

/-- Concrete instantiation of `C1_view_access_control`: on the fixture store,
the foreign patient `p2` is rejected with 403 and the doctor's view of `"c1"`
succeeds; in `main.py`, the view of `"c1"` returns the stored case. -/
theorem C1_view_access_control_witness :
    Routers.get_case rdb "c1" patientP2 = (.error 403, rdb) ∧
      (Routers.get_case rdb "c1" doctorD1).1 = .ok (rcaseCompleted, []) ∧
      MainApp.get_case mdb "c1" = .ok mcaseCompleted :=
  ⟨C1_view_access_control.2.1 rdb "c1" patientP2 rcaseCompleted rfl rfl (by decide),
   C1_view_access_control.2.2.2.1 rdb "c1" doctorD1 rcaseCompleted rfl rfl,
   C1_view_access_control.2.2.2.2.1 mdb "c1" mcaseCompleted rfl⟩

/-- **C2, counterexample.**  The claim demands that the sender's own unread
flag be left unchanged.  In the routers variant (`send_message`, cited at
`cases.py:218-223`) the update writes *both* flags:
`has_unread_for_patient := not is_patient`.  On the fixture store, case
`"c2"` has `has_unread_for_patient = true`; after its owner `p1` (a PATIENT)
sends a message, the stored flag is `false`, not the unchanged `true`. -/
theorem C2_appendMessage_unread_cex :
    rcasePending.has_unread_for_patient = true ∧
      (((Routers.send_message rdb "c2" patientP1 "m1" "hi" "10:00" 3).2.medical_cases.find?
          (fun c => c.id == "c2")).map (fun c => c.has_unread_for_patient))
        = some false := by
  exact ⟨rfl, by decide⟩

/-- **C2, amended.**  In the `main.py` variant (`add_case_message`) the
claim holds as stated: the flag of the role opposite to the sender becomes
true and the sender's own flag keeps its prior value.  In the routers
variant (`send_message`) appendMessage instead *writes both* flags: the
opposite role's flag becomes true and the sender's own role's flag is set to
false, regardless of its prior value. -/
theorem C2_appendMessage_unread :
    (∀ (db : Routers.DB) (cid : String) (u : AuthUser) (c : Routers.CaseRow)
        (mid text ts : String) (now : Nat),
        db.medical_cases.find? (fun x => x.id == cid) = some c →
          db.case_messages.any (fun m => m.id == mid) = false →
            (((Routers.send_message db cid u mid text ts now).2.medical_cases.find?
                (fun x => x.id == cid)).map
              (fun x => (x.has_unread_for_doctor, x.has_unread_for_patient)))
              = some (u.role == "PATIENT", !(u.role == "PATIENT"))) ∧
    (∀ (db : MainApp.CasesDB) (cid : String) (u : AuthUser) (c : MainApp.Case)
        (mid text ts : String),
        db.find? (fun x => x.id == cid) = some c →
          (((MainApp.add_case_message db cid (some u) mid text ts).2.find?
              (fun x => x.id == cid)).map
            (fun x => (x.hasUnreadForDoctor, x.hasUnreadForPatient)))
            = some (if u.role == "doctor" then c.hasUnreadForDoctor else true,
                    if u.role == "doctor" then true else c.hasUnreadForPatient)) := by
  constructor
  · intro db cid u c mid text ts now hfind hmsg
    simp only [Routers.send_message, hfind, hmsg, Bool.false_eq_true, if_false]
    rw [show (fun (x : Routers.CaseRow) => x.id == cid)
          = (fun x => (fun (y : Routers.CaseRow) => y.id) x == cid) from rfl,
        find?_update (fun (y : Routers.CaseRow) => y.id) _ cid
          (fun x => { x with has_unread_for_doctor := u.role == "PATIENT",
                             has_unread_for_patient := !(u.role == "PATIENT") })
          (fun x => rfl),
        hfind]
    rfl
  · intro db cid u c mid text ts hfind
    simp only [MainApp.add_case_message, hfind]
    rw [show (fun (x : MainApp.Case) => x.id == cid)
          = (fun x => (fun (y : MainApp.Case) => y.id) x == cid) from rfl,
        find?_update (fun (y : MainApp.Case) => y.id) _ cid _
          (fun x => by dsimp only; split <;> rfl),
        hfind]
    dsimp only [Option.map_some']
    split <;> rfl

/-- Concrete instantiation of `C2_appendMessage_unread`: a doctor's message
in the routers variant leaves the flag pair `(false, true)` — the doctor's
own flag is cleared; a patient's message in `main.py` leaves `(true, true)`
— the patient's own (previously set) flag survives. -/
theorem C2_appendMessage_unread_witness :
    (((Routers.send_message rdb "c2" doctorD1 "m1" "hi" "10:00" 3).2.medical_cases.find?
        (fun x => x.id == "c2")).map
      (fun x => (x.has_unread_for_doctor, x.has_unread_for_patient)))
      = some (false, true) ∧
    (((MainApp.add_case_message mdb "c2" (some mPatientP1) "m1" "hi" "10:00").2.find?
        (fun x => x.id == "c2")).map
      (fun x => (x.hasUnreadForDoctor, x.hasUnreadForPatient)))
      = some (true, true) :=
  ⟨C2_appendMessage_unread.1 rdb "c2" doctorD1 rcasePending "m1" "hi" "10:00" 3 rfl rfl,
   C2_appendMessage_unread.2 mdb "c2" mPatientP1 mcasePending "m1" "hi" "10:00" rfl⟩

/-- **C3, counterexample.**  The claim demands Forbidden for every
non-DOCTOR caller.  In `main.py` (`submit_case_diagnosis`, cited at
`main.py:585-604`) there is no role check: on the fixture store the patient
`p1` submits a diagnosis on case `"c2"` and it *succeeds*, completing the
case. -/
theorem C3_submitDiagnosis_auth_cex :
    mPatientP1.role = "patient" ∧
      (MainApp.submit_case_diagnosis mdb "c2" (some mPatientP1) "fb" "11:00").1.isOk = true ∧
      (((MainApp.submit_case_diagnosis mdb "c2" (some mPatientP1) "fb" "11:00").2.find?
          (fun c => c.id == "c2")).map (fun c => c.status)) = some "completed" := by
  exact ⟨rfl, rfl, by decide⟩

/-- **C3, amended.**  In the routers variant the role check comes first: any
caller whose role is not DOCTOR fails with 403 and the store is unchanged —
even when the case id is absent, so the NotFound half of the claim holds
there only for DOCTOR callers, for whom an absent id is a 404 with the store
unchanged.  In the `main.py` variant there is no role check: an absent case
id is a 404 for every caller (store unchanged), and on an existing case any
authenticated caller — patient included — submits successfully. -/
theorem C3_submitDiagnosis_auth :
    (∀ (db : Routers.DB) (cid : String) (u : AuthUser) (fb ts : String),
        u.role ≠ "DOCTOR" →
          Routers.submit_diagnosis db cid u fb ts = (.error 403, db)) ∧
    (∀ (db : Routers.DB) (cid : String) (u : AuthUser) (fb ts : String),
        u.role = "DOCTOR" →
          db.medical_cases.find? (fun c => c.id == cid) = none →
            Routers.submit_diagnosis db cid u fb ts = (.error 404, db)) ∧
    (∀ (db : MainApp.CasesDB) (cid : String) (user : Option AuthUser) (fb ts : String),
        db.find? (fun c => c.id == cid) = none →
          MainApp.submit_case_diagnosis db cid user fb ts = (.error 404, db)) ∧
    (∀ (db : MainApp.CasesDB) (cid : String) (u : AuthUser) (c : MainApp.Case)
        (fb ts : String),
        db.find? (fun c => c.id == cid) = some c →
          (MainApp.submit_case_diagnosis db cid (some u) fb ts).1
            = .ok (MainApp.diagnosisUpdate u fb ts c)) := by
  refine ⟨?_, ?_, ?_, ?_⟩
  · intro db cid u fb ts hrole
    simp [Routers.submit_diagnosis, hrole]
  · intro db cid u fb ts hrole hfind
    simp [Routers.submit_diagnosis, hrole, hfind]
  · intro db cid user fb ts hfind
    simp [MainApp.submit_case_diagnosis, hfind]
  · intro db cid u c fb ts hfind
    simp [MainApp.submit_case_diagnosis, hfind]

/-- Concrete instantiation of `C3_submitDiagnosis_auth`: on the fixture
stores, the patient caller is rejected with 403 by the routers variant, a
doctor's submit on the absent id `"zzz"` is a 404 in both variants, and the
patient's submit succeeds in `main.py`. -/
theorem C3_submitDiagnosis_auth_witness :
    Routers.submit_diagnosis rdb "c2" patientP1 "fb" "11:00" = (.error 403, rdb) ∧
      Routers.submit_diagnosis rdb "zzz" doctorD1 "fb" "11:00" = (.error 404, rdb) ∧
      MainApp.submit_case_diagnosis mdb "zzz" (some mDoctorD1) "fb" "11:00" = (.error 404, mdb) ∧
      (MainApp.submit_case_diagnosis mdb "c2" (some mPatientP1) "fb" "11:00").1
        = .ok (MainApp.diagnosisUpdate mPatientP1 "fb" "11:00" mcasePending) :=
  ⟨C3_submitDiagnosis_auth.1 rdb "c2" patientP1 "fb" "11:00" (by decide),
   C3_submitDiagnosis_auth.2.1 rdb "zzz" doctorD1 "fb" "11:00" rfl rfl,
   C3_submitDiagnosis_auth.2.2.1 mdb "zzz" (some mDoctorD1) "fb" "11:00" rfl,
   C3_submitDiagnosis_auth.2.2.2 mdb "c2" mPatientP1 mcasePending "fb" "11:00" rfl⟩

/-- **C4, counterexample.**  The claim demands that a login with correct id
and password but a mismatched requested role fail with Forbidden.  In
`main.py` (`login`, cited at `main.py:343-361`) the requested role is never
compared to the stored role: against the stored patient account `mUserP1`
(with the hash capability instantiated as the injection `"hash:" ++ ·`), a
login requesting role `"DOCTOR"` *succeeds* instead of failing 403. -/
theorem C4_login_role_mismatch_cex :
    mUserP1.role = "patient" ∧
      MainApp.login [mUserP1] (fun s => "hash:" ++ s) "p1" "pw1" "DOCTOR" = .ok mUserP1 := by
  exact ⟨rfl, rfl⟩

/-- **C4, amended.**  In the routers variant (`app/routers/auth.py`) the
claim holds as stated: a login whose id is found and whose password
verifies, but whose requested role differs from the stored role, fails with
403 (the password failure path, by contrast, is a 401).  In the `main.py`
variant the requested role is ignored: such a login simply succeeds. -/
theorem C4_login_role_mismatch :
    (∀ (profiles : List Routers.ProfileRow) (verify : String → String → Bool)
        (req_id req_password req_role : String) (u : Routers.ProfileRow),
        profiles.find? (fun x => x.id == req_id) = some u →
          verify req_password u.password_hash = true →
            u.role ≠ req_role →
              Routers.login profiles verify req_id req_password req_role = .error 403) ∧
    (∀ (users : List MainApp.UserRec) (sha256hex : String → String)
        (req_id req_password req_role : String) (u : MainApp.UserRec),
        users.find? (fun x => x.id == req_id) = some u →
          u.password_hash = sha256hex req_password →
            MainApp.login users sha256hex req_id req_password req_role = .ok u) := by
  constructor
  · intro profiles verify req_id req_password req_role u hfind hverify hrole
    simp [Routers.login, hfind, hverify, hrole]
  · intro users sha256hex req_id req_password req_role u hfind hhash
    simp [MainApp.login, hfind, hhash]

/-- Concrete instantiation of `C4_login_role_mismatch`: the stored patient
profile `rProfileP1` with a correct password but requested role `"DOCTOR"`
is rejected with 403 by the routers variant, while `main.py` logs the same
situation in successfully. -/
theorem C4_login_role_mismatch_witness :
    Routers.login [rProfileP1] (fun pw h => h == "hash:" ++ pw) "p1" "pw1" "DOCTOR"
        = .error 403 ∧
      MainApp.login [mUserP1] (fun s => "hash:" ++ s) "p1" "pw1" "DOCTOR" = .ok mUserP1 :=
  ⟨C4_login_role_mismatch.1 [rProfileP1] (fun pw h => h == "hash:" ++ pw)
      "p1" "pw1" "DOCTOR" rProfileP1 rfl (by decide) (by decide),
   C4_login_role_mismatch.2 [mUserP1] (fun s => "hash:" ++ s)
      "p1" "pw1" "DOCTOR" mUserP1 rfl rfl⟩

/-- **C6.**  A successful submitDiagnosis leaves the case COMPLETED with
`doctorFeedback`, `doctorName` and `replyTimestamp` jointly non-null and
`hasUnreadForPatient = true`, in both variants: the returned case is the
diagnosis update of the stored case, and the stored row afterwards carries
status `"completed"`, the feedback, the doctor's name, the reply timestamp
and the patient-unread flag. -/
theorem C6_submitDiagnosis_postconditions :
    (∀ (db : Routers.DB) (cid : String) (u : AuthUser) (c : Routers.CaseRow)
        (fb ts : String),
        u.role = "DOCTOR" →
          db.medical_cases.find? (fun x => x.id == cid) = some c →
            (Routers.submit_diagnosis db cid u fb ts).1
                = .ok (Routers.diagnosisUpdate u fb ts c) ∧
              (((Routers.submit_diagnosis db cid u fb ts).2.medical_cases.find?
                  (fun x => x.id == cid)).map
                (fun x => (x.status, x.doctor_feedback, x.doctor_name,
                           x.reply_timestamp, x.has_unread_for_patient)))
                = some ("completed", some fb, some u.name, some ts, true)) ∧
    (∀ (db : MainApp.CasesDB) (cid : String) (u : AuthUser) (c : MainApp.Case)
        (fb ts : String),
        db.find? (fun x => x.id == cid) = some c →
          (MainApp.submit_case_diagnosis db cid (some u) fb ts).1
              = .ok (MainApp.diagnosisUpdate u fb ts c) ∧
            (((MainApp.submit_case_diagnosis db cid (some u) fb ts).2.find?
                (fun x => x.id == cid)).map
              (fun x => (x.status, x.doctorFeedback, x.doctorName,
                         x.replyTimestamp, x.hasUnreadForPatient)))
              = some ("completed", some fb, some u.name, some ts, true)) := by
  constructor
  · intro db cid u c fb ts hrole hfind
    constructor
    · simp [Routers.submit_diagnosis, hrole, hfind]
    · simp only [Routers.submit_diagnosis, hrole, hfind]
      rw [if_neg (by simp [hrole])]
      rw [show (fun (x : Routers.CaseRow) => x.id == cid)
            = (fun x => (fun (y : Routers.CaseRow) => y.id) x == cid) from rfl,
          find?_update (fun (y : Routers.CaseRow) => y.id) _ cid
            (Routers.diagnosisUpdate u fb ts) (fun x => rfl),
          hfind]
      rfl
  · intro db cid u c fb ts hfind
    constructor
    · simp [MainApp.submit_case_diagnosis, hfind]
    · simp only [MainApp.submit_case_diagnosis, hfind]
      rw [show (fun (x : MainApp.Case) => x.id == cid)
            = (fun x => (fun (y : MainApp.Case) => y.id) x == cid) from rfl,
          find?_update (fun (y : MainApp.Case) => y.id) _ cid
            (MainApp.diagnosisUpdate u fb ts) (fun x => rfl),
          hfind]
      rfl

/-- Concrete instantiation of `C6_submitDiagnosis_postconditions` on the
pending fixture case `"c2"` in both variants. -/
theorem C6_submitDiagnosis_postconditions_witness :
    ((Routers.submit_diagnosis rdb "c2" doctorD1 "建议复查" "11:00").1
        = .ok (Routers.diagnosisUpdate doctorD1 "建议复查" "11:00" rcasePending) ∧
      (((Routers.submit_diagnosis rdb "c2" doctorD1 "建议复查" "11:00").2.medical_cases.find?
          (fun x => x.id == "c2")).map
        (fun x => (x.status, x.doctor_feedback, x.doctor_name,
                   x.reply_timestamp, x.has_unread_for_patient)))
        = some ("completed", some "建议复查", some "Doc One", some "11:00", true)) ∧
    ((MainApp.submit_case_diagnosis mdb "c2" (some mDoctorD1) "建议复查" "11:00").1
        = .ok (MainApp.diagnosisUpdate mDoctorD1 "建议复查" "11:00" mcasePending) ∧
      (((MainApp.submit_case_diagnosis mdb "c2" (some mDoctorD1) "建议复查" "11:00").2.find?
          (fun x => x.id == "c2")).map
        (fun x => (x.status, x.doctorFeedback, x.doctorName,
                   x.replyTimestamp, x.hasUnreadForPatient)))
        = some ("completed", some "建议复查", some "Doc One", some "11:00", true)) :=
  ⟨C6_submitDiagnosis_postconditions.1 rdb "c2" doctorD1 rcasePending "建议复查" "11:00" rfl rfl,
   C6_submitDiagnosis_postconditions.2 mdb "c2" mDoctorD1 mcasePending "建议复查" "11:00" rfl⟩

/-- Full characterisation of the routers view for a DOCTOR caller: the
response is the fetched case with its messages, and the store is updated
exactly when the doctor-unread flag was set. -/
theorem Routers.get_case_doctor_eq (db : Routers.DB) (cid : String) (u : AuthUser)
    (c : Routers.CaseRow)
    (hfind : db.medical_cases.find? (fun x => x.id == cid) = some c)
    (hrole : u.role = "DOCTOR") :
    Routers.get_case db cid u
      = (.ok (c, db.case_messages.filter (fun m => m.case_id == cid)),
         if c.has_unread_for_doctor then
           { db with medical_cases := db.medical_cases.map (fun x =>
               if x.id == cid then { x with has_unread_for_doctor := false } else x) }
         else db) := by
  simp only [Routers.get_case, hfind, hrole]
  rw [if_neg (by simp)]
  by_cases hflag : c.has_unread_for_doctor = true
  · rw [if_pos (by simp [hflag]), if_pos (by simp [hflag])]
  · rw [if_neg (by simp [hflag]), if_neg (by simp), if_neg (by simp [hflag])]

/-- Full characterisation of the routers view for an owning PATIENT caller. -/
theorem Routers.get_case_patient_eq (db : Routers.DB) (cid : String) (u : AuthUser)
    (c : Routers.CaseRow)
    (hfind : db.medical_cases.find? (fun x => x.id == cid) = some c)
    (hrole : u.role = "PATIENT") (hown : c.patient_id = u.id) :
    Routers.get_case db cid u
      = (.ok (c, db.case_messages.filter (fun m => m.case_id == cid)),
         if c.has_unread_for_patient then
           { db with medical_cases := db.medical_cases.map (fun x =>
               if x.id == cid then { x with has_unread_for_patient := false } else x) }
         else db) := by
  simp only [Routers.get_case, hfind, hrole]
  rw [if_neg (by simp [hown])]
  by_cases hflag : c.has_unread_for_patient = true
  · rw [if_neg (by simp), if_pos (by simp [hflag]), if_pos hflag]
  · rw [if_neg (by simp), if_neg (by simp [hflag]), if_neg (by simp [hflag])]

/-- **C7, counterexample.**  The claim demands that a successful view leave
the caller role's unread flag false.  The view of `main.py` (`get_case`,
cited at `main.py:490-496`) performs no write at all: it returns the stored
case and the store is untouched.  On the fixture store, case `"c2"` has
`hasUnreadForDoctor = true`; a (doctor's) view succeeds, yet the stored flag
is still `true` afterwards. -/
theorem C7_view_clears_unread_cex :
    MainApp.get_case mdb "c2" = .ok mcasePending ∧
      mcasePending.hasUnreadForDoctor = true ∧
      ((mdb.find? (fun c => c.id == "c2")).map (fun c => c.hasUnreadForDoctor)) = some true := by
  exact ⟨rfl, rfl, by decide⟩

/-- **C7, amended.**  In the routers variant the claim holds as stated: a
successful view (DOCTOR, or PATIENT owning the case) leaves the stored
unread flag of the caller's role false, and a second view by the same caller
leaves the store unchanged (clearing is idempotent).  In the `main.py`
variant the view never modifies the case — it merely returns the stored
case; unread flags are cleared only by the separate markRead endpoint. -/
theorem C7_view_clears_unread :
    (∀ (db : Routers.DB) (cid : String) (u : AuthUser) (c : Routers.CaseRow),
        db.medical_cases.find? (fun x => x.id == cid) = some c →
          (u.role = "DOCTOR" ∨ (u.role = "PATIENT" ∧ c.patient_id = u.id)) →
            (Routers.get_case db cid u).1.isOk = true ∧
              (((Routers.get_case db cid u).2.medical_cases.find? (fun x => x.id == cid)).map
                (fun x => if u.role == "DOCTOR" then x.has_unread_for_doctor
                          else x.has_unread_for_patient)) = some false ∧
              (Routers.get_case (Routers.get_case db cid u).2 cid u).2
                = (Routers.get_case db cid u).2) ∧
    (∀ (db : MainApp.CasesDB) (cid : String) (c : MainApp.Case),
        db.find? (fun x => x.id == cid) = some c → MainApp.get_case db cid = .ok c) := by
  constructor
  · intro db cid u c hfind hacc
    rcases hacc with hrole | ⟨hrole, hown⟩
    · rw [Routers.get_case_doctor_eq db cid u c hfind hrole]
      by_cases hflag : c.has_unread_for_doctor = true
      · rw [if_pos hflag]
        have hfind' : (db.medical_cases.map (fun x =>
            if x.id == cid then { x with has_unread_for_doctor := false } else x)).find?
            (fun x => x.id == cid) = some { c with has_unread_for_doctor := false } := by
          rw [show (fun (x : Routers.CaseRow) => x.id == cid)
                = (fun x => (fun (y : Routers.CaseRow) => y.id) x == cid) from rfl,
              find?_update (fun (y : Routers.CaseRow) => y.id) _ cid
                (fun x => { x with has_unread_for_doctor := false }) (fun x => rfl),
              hfind]
          rfl
        refine ⟨rfl, ?_, ?_⟩
        · dsimp only
          rw [hfind']
          simp [hrole]
        · dsimp only
          rw [Routers.get_case_doctor_eq _ cid u _ hfind' hrole]
          simp
      · rw [if_neg hflag]
        refine ⟨rfl, ?_, ?_⟩
        · dsimp only
          rw [hfind]
          have : c.has_unread_for_doctor = false := by simpa using hflag
          simp [hrole, this]
        · dsimp only
          rw [Routers.get_case_doctor_eq db cid u c hfind hrole, if_neg hflag]
    · rw [Routers.get_case_patient_eq db cid u c hfind hrole hown]
      have hne : ¬u.role = "DOCTOR" := by rw [hrole]; decide
      by_cases hflag : c.has_unread_for_patient = true
      · rw [if_pos hflag]
        have hfind' : (db.medical_cases.map (fun x =>
            if x.id == cid then { x with has_unread_for_patient := false } else x)).find?
            (fun x => x.id == cid) = some { c with has_unread_for_patient := false } := by
          rw [show (fun (x : Routers.CaseRow) => x.id == cid)
                = (fun x => (fun (y : Routers.CaseRow) => y.id) x == cid) from rfl,
              find?_update (fun (y : Routers.CaseRow) => y.id) _ cid
                (fun x => { x with has_unread_for_patient := false }) (fun x => rfl),
              hfind]
          rfl
        refine ⟨rfl, ?_, ?_⟩
        · dsimp only
          rw [hfind']
          simp [hrole]
        · dsimp only
          rw [Routers.get_case_patient_eq _ cid u
                { c with has_unread_for_patient := false } hfind' hrole hown]
          simp
      · rw [if_neg hflag]
        refine ⟨rfl, ?_, ?_⟩
        · dsimp only
          rw [hfind]
          have : c.has_unread_for_patient = false := by simpa using hflag
          simp [hrole, this]
        · dsimp only
          rw [Routers.get_case_patient_eq db cid u c hfind hrole hown, if_neg hflag]
  · intro db cid c hfind
    simp [MainApp.get_case, hfind]

/-- Concrete instantiation of `C7_view_clears_unread`: the doctor's view of
the fixture case `"c2"` (doctor-unread set) succeeds, leaves the stored
doctor flag false and is idempotent; `main.py`'s view of `"c2"` returns the
stored case unchanged. -/
theorem C7_view_clears_unread_witness :
    ((Routers.get_case rdb "c2" doctorD1).1.isOk = true ∧
        (((Routers.get_case rdb "c2" doctorD1).2.medical_cases.find?
            (fun x => x.id == "c2")).map
          (fun x => if doctorD1.role == "DOCTOR" then x.has_unread_for_doctor
                    else x.has_unread_for_patient)) = some false ∧
        (Routers.get_case (Routers.get_case rdb "c2" doctorD1).2 "c2" doctorD1).2
          = (Routers.get_case rdb "c2" doctorD1).2) ∧
      MainApp.get_case mdb "c2" = .ok mcasePending :=
  ⟨C7_view_clears_unread.1 rdb "c2" doctorD1 rcasePending rfl (Or.inl rfl),
   C7_view_clears_unread.2 mdb "c2" mcasePending rfl⟩

/-- **C8.**  Visual feature selection is a pure function of the image bytes:
byte-identical inputs yield the identical catalog index — which is exactly
the MD5 digest of the bytes read as a number, taken modulo the catalog size
and hence in range — and therefore select the identical catalog entry. -/
theorem C8_feature_selection_deterministic :
    ∀ b1 b2 : List Nat, b1 = b2 →
      seed_idx b1 = seed_idx b2 ∧
        seed_idx b1 = MD5.digestNat b1 % FEATURE_DATABASE.length ∧
        seed_idx b1 < FEATURE_DATABASE.length ∧
        visual_feature b1 = visual_feature b2 := by
  intro b1 b2 h
  subst h
  exact ⟨rfl, rfl, Nat.mod_lt _ (by decide), rfl⟩

/-- Concrete instantiation of `C8_feature_selection_deterministic` on the
byte string `[0, 1, 2]`. -/
theorem C8_feature_selection_deterministic_witness :
    seed_idx [0, 1, 2] = seed_idx [0, 1, 2] ∧
      seed_idx [0, 1, 2] = MD5.digestNat [0, 1, 2] % FEATURE_DATABASE.length ∧
      seed_idx [0, 1, 2] < FEATURE_DATABASE.length ∧
      visual_feature [0, 1, 2] = visual_feature [0, 1, 2] :=
  C8_feature_selection_deterministic [0, 1, 2] [0, 1, 2] rfl

/-- Every entry of the fixed visual catalog has a non-empty region list, and
both variants' fallback summaries built from it are non-empty. -/
theorem FEATURE_DATABASE_entries_sound :
    ∀ i : Fin FEATURE_DATABASE.length,
      (FEATURE_DATABASE.get i).regions ≠ [] ∧
        ("AI 融合分析：影像显示" ++ (FEATURE_DATABASE.get i).regions.headD "" ++ "异常。") ≠ "" ∧
        ("AI分析：" ++ (FEATURE_DATABASE.get i).regions.headD "" ++ "异常。") ≠ "" := by
  decide

/-- **C9.**  Whenever the model output fails to parse as JSON,
`analyze_multimodal` returns the deterministic fallback report, and that
report satisfies the fixed contract: non-empty summary, one region entry per
affected region of the selected visual feature — each with score `0.8` and
level `"High Risk"`, hence a non-empty list — and the four auxiliary lists
empty.  Each variant is conditioned exactly on its own parse failing: the
service variant parses the cleaned text (` ```json `/` ``` ` fences
stripped), while `main.py` parses the raw model text — so a fenced-JSON
output, which fails `main.py`'s raw parse even though its cleaned form would
parse, is covered by the `main.py` half. -/
theorem C9_parse_failure_fallback :
    (∀ (parse : String → Option AnalysisReport) (image_contents : List Nat)
        (gene : Option (List Nat × String)) (model_output : String),
        parse (AiService.cleaned model_output) = none →
          AiService.analyze_multimodal parse image_contents gene model_output
              = AiService.fallback_report (visual_feature image_contents)
                  (AiService.gene_feature_text gene) ∧
            (AiService.analyze_multimodal parse image_contents gene model_output).summary ≠ "" ∧
            (AiService.analyze_multimodal parse image_contents gene model_output).regions
              = (visual_feature image_contents).regions.map (fun r =>
                  { name := r, description := "检测到异常信号",
                    score := 0.8, level := "High Risk" }) ∧
            (AiService.analyze_multimodal parse image_contents gene model_output).regions ≠ [] ∧
            (AiService.analyze_multimodal parse image_contents gene model_output).diseaseRisks = [] ∧
            (AiService.analyze_multimodal parse image_contents gene model_output).gwasAnalysis = [] ∧
            (AiService.analyze_multimodal parse image_contents gene model_output).modelConfidence = [] ∧
            (AiService.analyze_multimodal parse image_contents gene
                model_output).lifecycleProjection = []) ∧
    (∀ (parse : String → Option AnalysisReport) (image_contents : List Nat)
        (gene_filename : Option String) (model_output : String),
        parse model_output = none →
          MainApp.analyze_multimodal parse image_contents gene_filename model_output
              = MainApp.fallback_report (visual_feature image_contents) ∧
            (MainApp.analyze_multimodal parse image_contents gene_filename
                model_output).summary ≠ "" ∧
            (MainApp.analyze_multimodal parse image_contents gene_filename model_output).regions
              = (visual_feature image_contents).regions.map (fun r =>
                  { name := r, description := "异常", score := 0.8, level := "High Risk" }) ∧
            (MainApp.analyze_multimodal parse image_contents gene_filename
                model_output).regions ≠ [] ∧
            (MainApp.analyze_multimodal parse image_contents gene_filename
                model_output).diseaseRisks = [] ∧
            (MainApp.analyze_multimodal parse image_contents gene_filename
                model_output).gwasAnalysis = [] ∧
            (MainApp.analyze_multimodal parse image_contents gene_filename
                model_output).modelConfidence = [] ∧
            (MainApp.analyze_multimodal parse image_contents gene_filename
                model_output).lifecycleProjection = []) := by
  constructor
  · intro parse image_contents gene model_output hclean
    have hsvc : AiService.analyze_multimodal parse image_contents gene model_output
        = AiService.fallback_report (visual_feature image_contents)
            (AiService.gene_feature_text gene) := by
      simp [AiService.analyze_multimodal, hclean]
    have hentries := FEATURE_DATABASE_entries_sound
      ⟨seed_idx image_contents, Nat.mod_lt _ (by decide)⟩
    refine ⟨hsvc, ?_, ?_, ?_, ?_, ?_, ?_, ?_⟩
    · rw [hsvc]; exact hentries.2.1
    · rw [hsvc]; rfl
    · rw [hsvc]
      simp only [AiService.fallback_report, ne_eq, List.map_eq_nil_iff]
      exact hentries.1
    · rw [hsvc]; rfl
    · rw [hsvc]; rfl
    · rw [hsvc]; rfl
    · rw [hsvc]; rfl
  · intro parse image_contents gene_filename model_output hraw
    have hmain : MainApp.analyze_multimodal parse image_contents gene_filename model_output
        = MainApp.fallback_report (visual_feature image_contents) := by
      simp [MainApp.analyze_multimodal, hraw]
    have hentries := FEATURE_DATABASE_entries_sound
      ⟨seed_idx image_contents, Nat.mod_lt _ (by decide)⟩
    refine ⟨hmain, ?_, ?_, ?_, ?_, ?_, ?_, ?_⟩
    · rw [hmain]; exact hentries.2.2
    · rw [hmain]; rfl
    · rw [hmain]
      simp only [MainApp.fallback_report, ne_eq, List.map_eq_nil_iff]
      exact hentries.1
    · rw [hmain]; rfl
    · rw [hmain]; rfl
    · rw [hmain]; rfl
    · rw [hmain]; rfl

/-- Concrete instantiation of `C9_parse_failure_fallback`.  Service half: a
parser that always fails on the non-JSON output `"oops, not json"`.
`main.py` half: a parser that succeeds exactly on the bare object `"{}"`,
fed the fenced output `"```json{}```"` — the raw parse fails (even though
the cleaned form would parse), so `main.py` returns the fallback. -/
theorem C9_parse_failure_fallback_witness :
    (AiService.analyze_multimodal (fun _ => none) [0, 1, 2] none "oops, not json"
        = AiService.fallback_report (visual_feature [0, 1, 2])
            (AiService.gene_feature_text none)) ∧
      (AiService.analyze_multimodal (fun _ => none) [0, 1, 2] none
          "oops, not json").summary ≠ "" ∧
      (MainApp.analyze_multimodal
          (fun s => if s == "{}" then some ⟨"s", "d", [], "r", [], [], [], []⟩ else none)
          [0, 1, 2] none "```json{}```"
        = MainApp.fallback_report (visual_feature [0, 1, 2])) ∧
      (MainApp.analyze_multimodal
          (fun s => if s == "{}" then some ⟨"s", "d", [], "r", [], [], [], []⟩ else none)
          [0, 1, 2] none "```json{}```").regions ≠ [] :=
  let hs := C9_parse_failure_fallback.1 (fun _ => none) [0, 1, 2] none
    "oops, not json" rfl
  let hm := C9_parse_failure_fallback.2
    (fun s => if s == "{}" then some ⟨"s", "d", [], "r", [], [], [], []⟩ else none)
    [0, 1, 2] none "```json{}```" (by decide)
  ⟨hs.1, hs.2.1, hm.1, hm.2.2.2.1⟩

/-- **C10.**  In the routers variant (`create_case`, `cases.py:149-181`), a
blob-store failure while uploading the image (`image = some (.error ())`)
never fails the create: for a PATIENT caller (and a fresh server-generated
id) the case is created and returned successfully, with `image_url = none`,
owned by the caller, in status `"pending"`, and appended to the store. -/
theorem C10_create_survives_upload_failure :
    ∀ (db : Routers.DB) (u : AuthUser) (new_id : String) (now : Nat)
      (description : String) (modality tags : Option String),
      u.role = "PATIENT" →
        db.medical_cases.any (fun c => c.id == new_id) = false →
          ∃ r, Routers.create_case db u new_id now description modality tags
                  (some (.error ()))
                = (.ok r, { db with medical_cases := db.medical_cases ++ [r] }) ∧
              r.image_url = none ∧ r.id = new_id ∧ r.patient_id = u.id ∧
              r.status = "pending" := by
  intro db u nid now d m t hrole hfresh
  simp only [Routers.create_case]
  rw [if_neg (by simp [hrole]), if_neg (by simp [hfresh])]
  exact ⟨_, rfl, rfl, rfl, rfl, rfl⟩

/-- Concrete instantiation of `C10_create_survives_upload_failure` on the
fixture store with the fresh id `"c9"`. -/
theorem C10_create_survives_upload_failure_witness :
    ∃ r, Routers.create_case rdb patientP1 "c9" 9 "new case" none none
            (some (.error ()))
          = (.ok r, { rdb with medical_cases := rdb.medical_cases ++ [r] }) ∧
        r.image_url = none ∧ r.id = "c9" ∧ r.patient_id = patientP1.id ∧
        r.status = "pending" :=
  C10_create_survives_upload_failure rdb patientP1 "c9" 9 "new case" none none rfl rfl
